import Mathlib

set_option linter.unusedVariables false

/-!
Verification development for the SCIS-LiSA BibTeX ingestion and deduplication
pipeline.  The definitions below are a shallow embedding of the Python code in
`src/backend/parsers/bibtex_parser.py`, `src/backend/services/ingestion_service.py`,
`src/backend/models/db_models.py` and `src/backend/api/v1/endpoints/admin.py`.

Modelling conventions:
- SQLAlchemy tables are lists of records; autoincrement ids come from explicit
  counters in the `DB` state; object mutation through the ORM identity map is
  modelled by updating the (unique) row with the same id.
- Python truthiness of strings/Options is modelled explicitly (`truthy`,
  `intTruthy`): `None`, `""` and `0` are falsy.
- A Python dict access `d['k']` on a possibly missing key is modelled by an
  `Option` field; the surrounding `try/except` of `create_publication` turns a
  missing `dblp_key` into the error branch.
- Python `set` iteration order (for `faculty_pids_in_pub`) is modelled by the
  deterministic order of the underlying `source_pids` list.
- The single-run execution is sequential (single writer), so the
  unique-constraint retry branch of `_create_collaborations` is unreachable and
  the upsert is modelled by its try path.
-/

/-- Python truthiness of an optional string: `None` and `""` are falsy. -/
def truthy : Option String → Bool
  | none => false
  | some s => s != ""

/-- Python `a or b` on optional strings: returns `a` when truthy, else `b`. -/
def pyOr (a b : Option String) : Option String :=
  if truthy a then a else b

/-- Python truthiness of an optional int: `None` and `0` are falsy. -/
def intTruthy : Option Int → Bool
  | none => false
  | some y => y != 0

/-- Python `str.lower()` (ascii case folding, as used on these names). -/
def pyLower (s : String) : String :=
  String.mk (s.toList.map Char.toLower)

/-- Python `str.upper()`. -/
def pyUpper (s : String) : String :=
  String.mk (s.toList.map Char.toUpper)

/-- Python `str.strip()`: drop leading and trailing whitespace. -/
def pyStrip (s : String) : String :=
  String.mk (((s.toList.dropWhile Char.isWhitespace).reverse.dropWhile
    Char.isWhitespace).reverse)

/-- Split a character list on whitespace (producing possibly empty chunks). -/
def splitWsChars (cs : List Char) : List (List Char) :=
  cs.foldr
    (fun c acc =>
      if c.isWhitespace then [] :: acc
      else
        match acc with
        | [] => [[c]]
        | t :: ts => (c :: t) :: ts)
    []

/-- Python `str.split()` with no argument: split on whitespace runs, no empty
tokens. -/
def pySplitWs (s : String) : List String :=
  ((splitWsChars s.toList).filter (fun t => t ≠ [])).map String.mk

/-- Python `sep.join(parts)`. -/
def joinWith (sep : String) (parts : List String) : String :=
  match parts with
  | [] => ""
  | t :: rest => rest.foldl (fun acc x => acc ++ sep ++ x) t

/-- Python `s.replace(old, new)` for a single-character `old` (the only shape
used by the source: `'.'`, `','` and newline). -/
def pyReplace (s : String) (old : Char) (new : String) : String :=
  String.mk (s.toList.foldr
    (fun c acc => if c = old then new.toList ++ acc else c :: acc) [])

/-- Python's `' '.join(s.split())`: collapse runs of whitespace, drop edges. -/
def collapseWhitespace (s : String) : String :=
  joinWith " " (pySplitWs s)

/-- `DatabaseIngestionService.normalize_name`: collapse whitespace, lowercase,
strip periods and commas. -/
def normalize_name (name : String) : String :=
  if name = "" then ""
  else
    let n := collapseWhitespace name
    let n := pyLower n
    let n := pyReplace (pyReplace n '.' "") ',' ""
    pyStrip n

/-- `BibTeXParser.normalize_text`: collapse whitespace, lowercase, keep only
ascii letters, digits and whitespace. -/
def normalize_text (text : String) : String :=
  if text = "" then ""
  else
    let t := collapseWhitespace text
    let t := pyLower t
    let t := String.mk (t.toList.filter (fun c =>
      ('a' ≤ c && c ≤ 'z') || ('0' ≤ c && c ≤ '9') || c.isWhitespace))
    pyStrip t

/-- `BibTeXParser.extract_publication_type`: static lookup, unknown tags map
to `"unknown"`. -/
def extract_publication_type (entry_type : String) : String :=
  let t := pyLower entry_type
  if t = "article" then "article"
  else if t = "inproceedings" then "conference"
  else if t = "proceedings" then "proceedings"
  else if t = "book" then "book"
  else if t = "incollection" then "book_chapter"
  else if t = "phdthesis" then "thesis"
  else if t = "mastersthesis" then "thesis"
  else if t = "techreport" then "technical_report"
  else if t = "misc" then "misc"
  else "unknown"

/-- Parse a non-empty all-digit character list as a natural number. -/
def parseNatDigits (cs : List Char) : Option Nat :=
  match cs with
  | [] => none
  | _ =>
    cs.foldl
      (fun acc c => acc.bind (fun n =>
        if '0' ≤ c && c ≤ '9' then some (n * 10 + (c.toNat - 48)) else none))
      (some 0)

/-- Python `int(s)` on a string: strip whitespace, optional sign, digits;
`ValueError` is `none`. -/
def pyInt (s : String) : Option Int :=
  match (pyStrip s).toList with
  | '-' :: rest => (parseNatDigits rest).map (fun n => -(n : Int))
  | '+' :: rest => (parseNatDigits rest).map (fun n => (n : Int))
  | cs => (parseNatDigits cs).map (fun n => (n : Int))

/-- `BibTeXParser._safe_int`: `int(value) if value else None`, exceptions give
`None`. -/
def safe_int (value : Option String) : Option Int :=
  match value with
  | none => none
  | some s => if s = "" then none else pyInt s

/-- Try to match the regex separator `\s+and\s+` (case-insensitive) at the head
of the character list; on success return the remainder after the separator. -/
def matchAndSep (cs : List Char) : Option (List Char) :=
  let ws1 := cs.takeWhile Char.isWhitespace
  if ws1.length = 0 then none
  else
    match cs.drop ws1.length with
    | a :: n :: d :: rest =>
      if a.toLower = 'a' && n.toLower = 'n' && d.toLower = 'd' then
        let ws2 := rest.takeWhile Char.isWhitespace
        if ws2.length = 0 then none else some (rest.drop ws2.length)
      else none
    | _ => none

/-- Scanner for `re.split(r'\s+and\s+', s, flags=IGNORECASE)`.  The fuel is
always at least the number of remaining characters plus one, so it never runs
out. -/
def splitOnAndAux : Nat → List Char → List Char → List String
  | 0, acc, rest => [String.mk (acc.reverse ++ rest)]
  | _ + 1, acc, [] => [String.mk acc.reverse]
  | fuel + 1, acc, c :: cs =>
    match matchAndSep (c :: cs) with
    | some rest => String.mk acc.reverse :: splitOnAndAux fuel [] rest
    | none => splitOnAndAux fuel (c :: acc) cs

/-- `BibTeXParser.parse_authors`: replace newlines by spaces, split on a
whitespace-delimited case-insensitive `and`, collapse whitespace, drop empty
tokens. -/
def parse_authors (author_str : String) : List String :=
  if author_str = "" then []
  else
    let s := pyReplace author_str '\n' " "
    let parts := splitOnAndAux (s.length + 1) [] s.toList
    (parts.map collapseWhitespace).filter (fun a => a != "")

/-- Row of the `authors` table (`models/db_models.py`, class `Author`). -/
structure Author where
  id : Nat
  name : String
  normalized_name : String
  dblp_pid : Option String
  is_faculty : Bool
  email : Option String
  phone : Option String
  designation : Option String
  department : Option String
  total_publications : Nat
  total_collaborations : Nat
deriving DecidableEq

/-- Row of the `publications` table (`models/db_models.py`, class
`Publication`). -/
structure Publication where
  id : Nat
  title : String
  normalized_title : String
  dblp_key : String
  publication_type : String
  year : Option Int
  journal : String
  booktitle : String
  volume : String
  number : String
  pages : String
  publisher : String
  series : String
  editor : Option String
  url : String
  doi : String
  ee : String
  biburl : String
  bibsource : String
  timestamp : String
  abstract : String
  keywords : String
  author_count : Nat
  has_faculty_author : Bool
  source_pid : Option String
  source_pids : List String
deriving DecidableEq

/-- Row of the `collaborations` table (`models/db_models.py`, class
`Collaboration`); the autoincrement id column is never read and is omitted. -/
structure Collaboration where
  author1_id : Nat
  author2_id : Nat
  collaboration_count : Nat
  first_collaboration_year : Option Int
  last_collaboration_year : Option Int
deriving DecidableEq

/-- Row of the `venues` table (`models/db_models.py`, class `Venue`). -/
structure Venue where
  id : Nat
  name : String
  venue_type : String
  publisher : String
  total_publications : Nat
  faculty_publications : Nat
deriving DecidableEq

/-- Row of the `publication_authors` association table. -/
structure PubAuthorAssoc where
  publication_id : Nat
  author_id : Nat
  author_position : Nat
deriving DecidableEq

/-- The relational store, with explicit autoincrement counters. -/
structure DB where
  authors : List Author
  publications : List Publication
  collaborations : List Collaboration
  venues : List Venue
  publication_authors : List PubAuthorAssoc
  next_author_id : Nat
  next_pub_id : Nat
  next_venue_id : Nat
deriving DecidableEq

/-- The `stats` counter dict of `DatabaseIngestionService`. -/
structure Stats where
  publications_added : Nat
  publications_skipped : Nat
  authors_added : Nat
  authors_updated : Nat
  collaborations_added : Nat
  venues_added : Nat
  errors : Nat
deriving DecidableEq

/-- One entry of the parsed publication dict produced by
`BibTeXParser.parse_bib_file` (and enriched by `parse_all_bib_files`).
`dblp_key` is an `Option` so that a malformed dict missing the key can be
represented; the parser always fills it. -/
structure PubData where
  dblp_key : Option String
  title : String
  normalized_title : String
  publication_type : String
  year : Option Int
  authors : List String
  editors : List String
  journal : String
  booktitle : String
  volume : String
  number : String
  pages : String
  publisher : String
  series : String
  url : String
  doi : String
  ee : String
  biburl : String
  bibsource : String
  timestamp : String
  abstract : String
  keywords : String
  source_pid : Option String
  source_pids : List String
deriving DecidableEq

/-- Faculty profile record as produced by `load_faculty_mapping`. -/
structure FacultyInfo where
  faculty_name : String
  dblp_pid : Option String
  email : Option String
  phone : Option String
  designation : Option String
  department : Option String
deriving DecidableEq

/-- The `{'by_name': ..., 'by_pid': ...}` mapping of `load_faculty_mapping`. -/
structure FacultyMapping where
  by_name : List (String × FacultyInfo)
  by_pid : List (String × FacultyInfo)
deriving DecidableEq

/-- State of a `DatabaseIngestionService` instance: session, caches, stats.
The caches map cache keys to row ids (the ORM identity map guarantees one
object per row, so caching the object is caching its id). -/
structure IngestionService where
  db : DB
  author_cache : List (String × Nat)
  venue_cache : List (String × Nat)
  stats : Stats
deriving DecidableEq

def emptyDB : DB :=
  { authors := [], publications := [], collaborations := [], venues := []
    publication_authors := [], next_author_id := 0, next_pub_id := 0
    next_venue_id := 0 }

def initStats : Stats :=
  { publications_added := 0, publications_skipped := 0, authors_added := 0
    authors_updated := 0, collaborations_added := 0, venues_added := 0
    errors := 0 }

/-- A freshly constructed `DatabaseIngestionService` over an empty database. -/
def newService : IngestionService :=
  { db := emptyDB, author_cache := [], venue_cache := [], stats := initStats }

/-- Mutate the first row with the given author id (ORM object mutation). -/
def updateFirstAuthor : List Author → Nat → (Author → Author) → List Author
  | [], _, _ => []
  | a :: rest, aid, f =>
    if a.id = aid then f a :: rest else a :: updateFirstAuthor rest aid f

/-- Mutate the first row with the given venue id (ORM object mutation). -/
def updateFirstVenue : List Venue → Nat → (Venue → Venue) → List Venue
  | [], _, _ => []
  | v :: rest, vid, f =>
    if v.id = vid then f v :: rest else v :: updateFirstVenue rest vid f

/-- `DatabaseIngestionService.get_or_create_author`.  Returns the id of the
resolved author together with the updated service state. -/
def get_or_create_author (svc : IngestionService) (author_name : String)
    (is_faculty : Bool) (dblp_pid : Option String)
    (faculty_data : Option FacultyInfo) : Nat × IngestionService :=
  let normalized := normalize_name author_name
  let cache_key := normalized ++ "_" ++ dblp_pid.getD ""
  match svc.author_cache.lookup cache_key with
  | some aid => (aid, svc)
  | none =>
    let found :=
      if truthy dblp_pid then
        svc.db.authors.find? (fun a => a.dblp_pid == dblp_pid)
      else
        svc.db.authors.find? (fun a => a.normalized_name == normalized)
    match found with
    | some author =>
      if is_faculty && !author.is_faculty then
        let promoted :=
          match faculty_data with
          | some fd =>
            { author with
              is_faculty := true,
              email := pyOr fd.email author.email,
              phone := pyOr fd.phone author.phone,
              designation := pyOr fd.designation author.designation }
          | none => { author with is_faculty := true }
        let svc :=
          { svc with
            db := { svc.db with
              authors := updateFirstAuthor svc.db.authors author.id (fun _ => promoted) }
            stats := { svc.stats with authors_updated := svc.stats.authors_updated + 1 } }
        (author.id, { svc with author_cache := (cache_key, author.id) :: svc.author_cache })
      else
        (author.id, { svc with author_cache := (cache_key, author.id) :: svc.author_cache })
    | none =>
      let author : Author :=
        { id := svc.db.next_author_id
          name := author_name
          normalized_name := normalized
          dblp_pid := dblp_pid
          is_faculty := is_faculty
          email := faculty_data.bind (fun fd => fd.email)
          phone := faculty_data.bind (fun fd => fd.phone)
          designation := faculty_data.bind (fun fd => fd.designation)
          department := if is_faculty then some "SCIS" else none
          total_publications := 0
          total_collaborations := 0 }
      let svc :=
        { svc with
          db := { svc.db with
            authors := svc.db.authors ++ [author]
            next_author_id := svc.db.next_author_id + 1 }
          stats := { svc.stats with authors_added := svc.stats.authors_added + 1 } }
      (author.id, { svc with author_cache := (cache_key, author.id) :: svc.author_cache })

/-- `DatabaseIngestionService.get_or_create_venue`.  Returns the id of the
venue (or `none` for an empty name) and the updated service state. -/
def get_or_create_venue (svc : IngestionService) (venue_name : String)
    (venue_type : String) (publisher : String) : Option Nat × IngestionService :=
  if venue_name = "" then (none, svc)
  else
    match svc.venue_cache.lookup venue_name with
    | some vid => (some vid, svc)
    | none =>
      match svc.db.venues.find? (fun v => v.name == venue_name) with
      | some venue =>
        (some venue.id, { svc with venue_cache := (venue_name, venue.id) :: svc.venue_cache })
      | none =>
        let venue : Venue :=
          { id := svc.db.next_venue_id, name := venue_name
            venue_type := venue_type, publisher := publisher
            total_publications := 0, faculty_publications := 0 }
        let svc :=
          { svc with
            db := { svc.db with
              venues := svc.db.venues ++ [venue]
              next_venue_id := svc.db.next_venue_id + 1 }
            stats := { svc.stats with venues_added := svc.stats.venues_added + 1 } }
        (some venue.id, { svc with venue_cache := (venue_name, venue.id) :: svc.venue_cache })

/-- Widen the `[first, last]` collaboration year range by `year`, with Python
truthiness (`None` and `0` bounds are replaced unconditionally). -/
def widenYears (c : Collaboration) (year : Option Int) : Collaboration :=
  match year with
  | none => c
  | some y =>
    if y = 0 then c
    else
      let first :=
        match c.first_collaboration_year with
        | none => some y
        | some f => if f = 0 || y < f then some y else some f
      let last :=
        match c.last_collaboration_year with
        | none => some y
        | some l => if l = 0 || y > l then some y else some l
      { c with first_collaboration_year := first, last_collaboration_year := last }

/-- Mutate the first collaboration row with the given canonical pair. -/
def updateFirstCollab : List Collaboration → Nat → Nat →
    (Collaboration → Collaboration) → List Collaboration
  | [], _, _, _ => []
  | c :: rest, a1, a2, f =>
    if c.author1_id == a1 && c.author2_id == a2 then f c :: rest
    else c :: updateFirstCollab rest a1 a2 f

/-- The edge upsert inside `_create_collaborations`: increment and widen an
existing edge, or insert a fresh one.  Returns the new table and the number of
edges created (0 or 1). -/
def upsertCollab (cs : List Collaboration) (a1 a2 : Nat) (year : Option Int) :
    List Collaboration × Nat :=
  match cs.find? (fun c => c.author1_id == a1 && c.author2_id == a2) with
  | some _ =>
    (updateFirstCollab cs a1 a2
      (fun c => widenYears { c with collaboration_count := c.collaboration_count + 1 } year), 0)
  | none =>
    (cs ++ [{ author1_id := a1, author2_id := a2, collaboration_count := 1
              first_collaboration_year := year, last_collaboration_year := year }], 1)

/-- Refresh one author's cached `total_collaborations` from the edge table. -/
def setAuthorCollabCount (svc : IngestionService) (aid : Nat) : IngestionService :=
  let cnt := (svc.db.collaborations.filter
    (fun c => c.author1_id == aid || c.author2_id == aid)).length
  { svc with
    db := { svc.db with
      authors := updateFirstAuthor svc.db.authors aid
        (fun a => { a with total_collaborations := cnt }) } }

/-- Body of the nested pair loop of `_create_collaborations`: canonicalize the
pair (smaller id first), upsert the edge, refresh both authors' counts. -/
def collabPairStep (svc : IngestionService) (author1 author2 : Nat)
    (year : Option Int) : IngestionService :=
  let p := if author1 < author2 then (author1, author2) else (author2, author1)
  let res := upsertCollab svc.db.collaborations p.1 p.2 year
  let svc :=
    { svc with
      db := { svc.db with collaborations := res.1 }
      stats := { svc.stats with
        collaborations_added := svc.stats.collaborations_added + res.2 } }
  let svc := setAuthorCollabCount svc author1
  setAuthorCollabCount svc author2

/-- Iterate `collabPairStep` over the pair list. -/
def collabPairsAux (svc : IngestionService) (pairs : List (Nat × Nat))
    (year : Option Int) : IngestionService :=
  match pairs with
  | [] => svc
  | p :: rest => collabPairsAux (collabPairStep svc p.1 p.2 year) rest year

/-- All ordered pairs `(authors[i], authors[j])` with `i < j`, in loop order. -/
def allPairs : List Nat → List (Nat × Nat)
  | [] => []
  | a :: rest => rest.map (fun b => (a, b)) ++ allPairs rest

/-- `DatabaseIngestionService._create_collaborations` over the resolved author
ids of one publication. -/
def create_collaborations (svc : IngestionService) (authors : List Nat)
    (year : Option Int) : IngestionService :=
  if authors.length < 2 then svc
  else collabPairsAux svc (allPairs authors) year

/-- The `Publication` row built by `create_publication` (before the
`has_faculty_author` flag is filled in). -/
def mkPublication (pub_data : PubData) (dblp_key : String) (pid : Nat) : Publication :=
  { id := pid
    title := pub_data.title
    normalized_title := pub_data.normalized_title
    dblp_key := dblp_key
    publication_type := pub_data.publication_type
    year := pub_data.year
    journal := pub_data.journal
    booktitle := pub_data.booktitle
    volume := pub_data.volume
    number := pub_data.number
    pages := pub_data.pages
    publisher := pub_data.publisher
    series := pub_data.series
    editor := if pub_data.editors != [] then some (joinWith ", " pub_data.editors) else none
    url := pub_data.url
    doi := pub_data.doi
    ee := pub_data.ee
    biburl := pub_data.biburl
    bibsource := pub_data.bibsource
    timestamp := pub_data.timestamp
    abstract := pub_data.abstract
    keywords := pub_data.keywords
    author_count := pub_data.authors.length
    has_faculty_author := false
    source_pid := pub_data.source_pid
    source_pids := pub_data.source_pids }

/-- One iteration of the author loop of `create_publication`: match the name
against the faculty members whose PIDs tag this publication, resolve the
author, skip duplicates, record the association. -/
def resolveEntryAuthor (svc : IngestionService) (authors_in_pub : List Nat)
    (publication_id : Nat) (position : Nat) (author_name : String)
    (faculty_pids_in_pub : List String) (by_pid : List (String × FacultyInfo)) :
    IngestionService × List Nat :=
  let normalized_author := normalize_name author_name
  let matched := faculty_pids_in_pub.find? (fun fac_pid =>
    match by_pid.lookup fac_pid with
    | some fac_info => normalize_name fac_info.faculty_name == normalized_author
    | none => false)
  let is_faculty := matched.isSome
  let dblp_pid := matched
  let faculty_data := matched.bind (fun p => by_pid.lookup p)
  let res := get_or_create_author svc author_name is_faculty dblp_pid faculty_data
  let aid := res.1
  let svc := res.2
  if aid ∈ authors_in_pub then (svc, authors_in_pub)
  else
    let svc :=
      { svc with
        db := { svc.db with
          publication_authors := svc.db.publication_authors ++
            [{ publication_id := publication_id, author_id := aid, author_position := position }] } }
    (svc, authors_in_pub ++ [aid])

/-- The `enumerate(pub_data['authors'], 1)` loop of `create_publication`. -/
def processAuthorsAux (svc : IngestionService) (authors_in_pub : List Nat)
    (publication_id : Nat) (position : Nat) (names : List String)
    (faculty_pids_in_pub : List String) (by_pid : List (String × FacultyInfo)) :
    IngestionService × List Nat :=
  match names with
  | [] => (svc, authors_in_pub)
  | name :: rest =>
    let r := resolveEntryAuthor svc authors_in_pub publication_id position name
      faculty_pids_in_pub by_pid
    processAuthorsAux r.1 r.2 publication_id (position + 1) rest
      faculty_pids_in_pub by_pid

def processAuthors (svc : IngestionService) (publication_id : Nat)
    (names : List String) (faculty_pids_in_pub : List String)
    (by_pid : List (String × FacultyInfo)) : IngestionService × List Nat :=
  processAuthorsAux svc [] publication_id 1 names faculty_pids_in_pub by_pid

/-- Whether any of the entry's source PIDs belongs to a faculty member of the
mapping (the `set(source_pids) & set(pid_mapping.keys())` check). -/
def hasFacultyPids (pub_data : PubData) (faculty_mapping : FacultyMapping) : Bool :=
  !(pub_data.source_pids.filter
    (fun pid => (faculty_mapping.by_pid.lookup pid).isSome)).isEmpty

/-- The creation branch of `create_publication` (primary key not present in
the database): venue, row insertion, author resolution, faculty flag, venue
statistics, collaborations, author statistics. -/
def create_publication_new (svc : IngestionService) (pub_data : PubData)
    (dblp_key : String) (faculty_mapping : FacultyMapping) :
    Bool × IngestionService :=
  let vres :=
    if pub_data.journal != "" then
      get_or_create_venue svc pub_data.journal "journal" pub_data.publisher
    else if pub_data.booktitle != "" then
      get_or_create_venue svc pub_data.booktitle "conference" pub_data.publisher
    else (none, svc)
  let venue_id := vres.1
  let svc1 := vres.2
  let publication := mkPublication pub_data dblp_key svc1.db.next_pub_id
  let svc2 :=
    { svc1 with
      db := { svc1.db with
        publications := svc1.db.publications ++ [publication]
        next_pub_id := svc1.db.next_pub_id + 1 } }
  let by_pid := faculty_mapping.by_pid
  let faculty_pids_in_pub := pub_data.source_pids.filter
    (fun pid => (by_pid.lookup pid).isSome)
  let has_faculty := !faculty_pids_in_pub.isEmpty
  let pres := processAuthors svc2 publication.id pub_data.authors
    faculty_pids_in_pub by_pid
  let svc3 := pres.1
  let authors_in_pub := pres.2
  let svc4 :=
    { svc3 with
      db := { svc3.db with
        publications := svc3.db.publications.map (fun p =>
          if p.id = publication.id then { p with has_faculty_author := has_faculty } else p) } }
  let svc5 :=
    match venue_id with
    | some vid =>
      { svc4 with
        db := { svc4.db with
          venues := updateFirstVenue svc4.db.venues vid (fun v =>
            { v with
              total_publications := v.total_publications + 1
              faculty_publications := v.faculty_publications +
                (if has_faculty then 1 else 0) }) } }
    | none => svc4
  let svc6 := create_collaborations svc5 authors_in_pub pub_data.year
  let svc7 :=
    { svc6 with
      db := { svc6.db with
        authors := svc6.db.authors.map (fun (a : Author) =>
          if a.id ∈ authors_in_pub then
            { a with total_publications := (svc6.db.publication_authors.filter (fun (r : PubAuthorAssoc) => r.author_id == a.id)).length }
          else a) } }
  (true, { svc7 with
    stats := { svc7.stats with
      publications_added := svc7.stats.publications_added + 1 } })

/-- `create_publication` once the primary key has been read: look up by
`dblp_key` first and skip duplicates, else create. -/
def create_publication_keyed (svc : IngestionService) (pub_data : PubData)
    (dblp_key : String) (faculty_mapping : FacultyMapping) :
    Bool × IngestionService :=
  match svc.db.publications.find? (fun p => p.dblp_key == dblp_key) with
  | some _ =>
    (false, { svc with
      stats := { svc.stats with
        publications_skipped := svc.stats.publications_skipped + 1 } })
  | none => create_publication_new svc pub_data dblp_key faculty_mapping

/-- `DatabaseIngestionService.create_publication`.  A dict missing the
`dblp_key` raises `KeyError`, which the surrounding handler counts as an
error. -/
def create_publication (svc : IngestionService) (pub_data : PubData)
    (faculty_mapping : FacultyMapping) : Bool × IngestionService :=
  match pub_data.dblp_key with
  | none =>
    (false, { svc with stats := { svc.stats with errors := svc.stats.errors + 1 } })
  | some dblp_key => create_publication_keyed svc pub_data dblp_key faculty_mapping

/-- `DatabaseIngestionService.ingest_publications`: fold `create_publication`
over the batch (the periodic and final commits are durability-only and do not
change the session state). -/
def ingest_publications (svc : IngestionService) (publications : List PubData)
    (faculty_mapping : FacultyMapping) : IngestionService :=
  publications.foldl (fun s pd => (create_publication s pd faculty_mapping).2) svc

/-- Raw BibTeX entry as handed over by `bibtexparser` (`entry.get(...)` with
default `''`; `ENTRYTYPE` defaults to `'misc'` and `year` to `None` when the
field is missing, hence their `Option` type). -/
structure RawEntry where
  ID : String
  ENTRYTYPE : Option String
  doi : String
  title : String
  author : String
  editor : String
  year : Option String
  journal : String
  booktitle : String
  volume : String
  number : String
  pages : String
  publisher : String
  series : String
  url : String
  ee : String
  biburl : String
  bibsource : String
  timestamp : String
  abstract : String
  keywords : String
deriving DecidableEq

/-- Loop state of `BibTeXParser.parse_bib_file`. -/
structure ParseState where
  publications : List PubData
  total_count : Nat
  duplicate_count : Nat
  local_seen_keys : List String
  local_seen_dois : List String
deriving DecidableEq

def initParseState : ParseState :=
  { publications := [], total_count := 0, duplicate_count := 0
    local_seen_keys := [], local_seen_dois := [] }

/-- The publication dict built for one accepted entry in `parse_bib_file`. -/
def mkPubData (entry : RawEntry) (dblp_key doi : String) : PubData :=
  let title := pyStrip entry.title
  { dblp_key := some dblp_key
    title := title
    normalized_title := normalize_text title
    publication_type := extract_publication_type (entry.ENTRYTYPE.getD "misc")
    year := safe_int entry.year
    authors := parse_authors entry.author
    editors := parse_authors entry.editor
    journal := pyStrip entry.journal
    booktitle := pyStrip entry.booktitle
    volume := pyStrip entry.volume
    number := pyStrip entry.number
    pages := pyStrip entry.pages
    publisher := pyStrip entry.publisher
    series := pyStrip entry.series
    url := pyStrip entry.url
    doi := doi
    ee := pyStrip entry.ee
    biburl := pyStrip entry.biburl
    bibsource := pyStrip entry.bibsource
    timestamp := pyStrip entry.timestamp
    abstract := pyStrip entry.abstract
    keywords := pyStrip entry.keywords
    source_pid := none
    source_pids := [] }

/-- One iteration of the entry loop of `parse_bib_file`: drop entries without
a non-empty key and within-file duplicates by key or non-empty DOI. -/
def parseEntryStep (st : ParseState) (entry : RawEntry) : ParseState :=
  let total := st.total_count + 1
  let dblp_key := pyStrip entry.ID
  if dblp_key = "" then
    { st with total_count := total, duplicate_count := st.duplicate_count + 1 }
  else if dblp_key ∈ st.local_seen_keys then
    { st with total_count := total, duplicate_count := st.duplicate_count + 1 }
  else
    let doi := pyUpper (pyStrip entry.doi)
    if doi != "" && doi ∈ st.local_seen_dois then
      { st with total_count := total, duplicate_count := st.duplicate_count + 1 }
    else
      { st with
        total_count := total
        local_seen_keys := st.local_seen_keys ++ [dblp_key]
        local_seen_dois :=
          if doi != "" then st.local_seen_dois ++ [doi] else st.local_seen_dois
        publications := st.publications ++ [mkPubData entry dblp_key doi] }

/-- `BibTeXParser.parse_bib_file` over the entries of one file (the file IO
and `bibtexparser` load are the external boundary).  Returns
`(publications, total_count, duplicate_count)`. -/
def parse_bib_file (entries : List RawEntry) : List PubData × Nat × Nat :=
  let st := entries.foldl parseEntryStep initParseState
  (st.publications, st.total_count, st.duplicate_count)

/-- Replace the value bound to a key in the insertion-ordered dict
`publication_index` (position preserved, as for a Python dict). -/
def updateIndex (index : List (String × PubData)) (k : String) (v : PubData) :
    List (String × PubData) :=
  match index with
  | [] => []
  | (k', v') :: rest =>
    if k' = k then (k', v) :: rest else (k', v') :: updateIndex rest k v

/-- The cross-file merge step of `parse_all_bib_files`: a key already in the
index contributes its source PID to the existing record's provenance list
(no-op when already present) and counts as a duplicate; a fresh key is
inserted with a singleton provenance list. -/
def mergePub (index : List (String × PubData)) (source_pid : String)
    (pub : PubData) (duplicates : Nat) : List (String × PubData) × Nat :=
  let dblp_key := pub.dblp_key.getD ""
  match index.lookup dblp_key with
  | some existing_pub =>
    let existing' :=
      if source_pid ∈ existing_pub.source_pids then existing_pub
      else { existing_pub with source_pids := existing_pub.source_pids ++ [source_pid] }
    (updateIndex index dblp_key existing', duplicates + 1)
  | none =>
    let pub := { pub with source_pid := some source_pid, source_pids := [source_pid] }
    (index ++ [(dblp_key, pub)], duplicates)

/-- The per-file merge loop of `parse_all_bib_files`. -/
def mergeFilePublications (index : List (String × PubData)) (source_pid : String)
    (pubs : List PubData) (duplicates : Nat) : List (String × PubData) × Nat :=
  pubs.foldl (fun st pub => mergePub st.1 source_pid pub st.2) (index, duplicates)

/-- Status values stored in `task_status["ingest"]["status"]` in `admin.py`. -/
inductive IngestStatus
  | idle
  | starting
  | running
  | completed
  | error
deriving DecidableEq

/-- Abstract state of the module-level `task_status` dict together with the
background-task queue: how many ingestion tasks are queued but not yet begun,
and how many are currently executing. -/
structure AdminState where
  ingest_status : IngestStatus
  pending_tasks : Nat
  active_tasks : Nat
deriving DecidableEq

def initialAdminState : AdminState :=
  { ingest_status := .idle, pending_tasks := 0, active_tasks := 0 }

/-- The `/ingest-data` endpoint (`admin.py`, `ingest_data`): reject with 409
when the recorded status is `running`, otherwise reset the status to
`starting` and queue a background task.  The boolean is `true` when the
request was accepted. -/
def ingest_data (s : AdminState) : AdminState × Bool :=
  if s.ingest_status = .running then (s, false)
  else
    ({ ingest_status := .starting, pending_tasks := s.pending_tasks + 1
       active_tasks := s.active_tasks }, true)

/-- Events of the ingestion job lifecycle: a start request, a queued
background task beginning execution (`ingest_data_background` sets the status
to `running` first), and a task finishing with `completed` or `error`. -/
inductive AdminEvent
  | startRequest
  | beginTask
  | completeTask
  | failTask
deriving DecidableEq

/-- One transition of the job-status store; events that do not apply in the
current state leave it unchanged. -/
def adminStep (s : AdminState) : AdminEvent → AdminState
  | .startRequest => (ingest_data s).1
  | .beginTask =>
    if s.pending_tasks = 0 then s
    else
      { ingest_status := .running, pending_tasks := s.pending_tasks - 1
        active_tasks := s.active_tasks + 1 }
  | .completeTask =>
    if s.active_tasks = 0 then s
    else { s with ingest_status := .completed, active_tasks := s.active_tasks - 1 }
  | .failTask =>
    if s.active_tasks = 0 then s
    else { s with ingest_status := .error, active_tasks := s.active_tasks - 1 }

/-- Run the job-status store from the initial state over a list of events. -/
def adminRun (events : List AdminEvent) : AdminState :=
  events.foldl adminStep initialAdminState

/-- Canonical-order well-formedness of the collaboration table: every edge is
stored smaller id first, and no two rows share the same (ordered) pair. -/
def CollabWF (cs : List Collaboration) : Prop :=
  (∀ c ∈ cs, c.author1_id < c.author2_id) ∧
  (cs.map (fun c => (c.author1_id, c.author2_id))).Nodup

/-- Look up the edge for the canonical pair `(a, b)`. -/
def lookupCollab (cs : List Collaboration) (a b : Nat) : Option Collaboration :=
  cs.find? (fun c => c.author1_id == a && c.author2_id == b)

/-- All primary keys currently in the publications table. -/
def pubKeys (svc : IngestionService) : List String :=
  svc.db.publications.map (fun p => p.dblp_key)

-- Concrete fixtures
def basePubData : PubData :=
  { dblp_key := some "k", title := "t", normalized_title := "t"
    publication_type := "article", year := some 2020, authors := [], editors := []
    journal := "", booktitle := "", volume := "", number := "", pages := ""
    publisher := "", series := "", url := "", doi := "", ee := "", biburl := ""
    bibsource := "", timestamp := "", abstract := "", keywords := ""
    source_pid := some "00/1", source_pids := ["00/1"] }

def basePublication : Publication :=
  { id := 0, title := "t", normalized_title := "t", dblp_key := "k"
    publication_type := "article", year := some 2020, journal := "", booktitle := ""
    volume := "", number := "", pages := "", publisher := "", series := ""
    editor := none, url := "", doi := "", ee := "", biburl := "", bibsource := ""
    timestamp := "", abstract := "", keywords := "", author_count := 0
    has_faculty_author := false, source_pid := some "00/1", source_pids := ["00/1"] }

def emptyFacultyMapping : FacultyMapping := { by_name := [], by_pid := [] }

def aliceInfo : FacultyInfo :=
  { faculty_name := "Alice Y", dblp_pid := some "p1", email := none, phone := none
    designation := none, department := none }

def aliceMapping : FacultyMapping := { by_name := [], by_pid := [("p1", aliceInfo)] }

def svcWithPubK : IngestionService :=
  { newService with db := { emptyDB with
      publications := [{ basePublication with doi := "D" }], next_pub_id := 1 } }

def entryMissingKey : PubData := { basePubData with dblp_key := none }

def c7Batch : List PubData :=
  [{ basePubData with dblp_key := some "k1" }, { basePubData with dblp_key := some "k2" },
   { basePubData with dblp_key := some "k3" }, { basePubData with dblp_key := some "k4" },
   entryMissingKey,
   { basePubData with dblp_key := some "k5" }, { basePubData with dblp_key := some "k6" },
   { basePubData with dblp_key := some "k7" }, { basePubData with dblp_key := some "k8" },
   { basePubData with dblp_key := some "k9" }]

def ParseInv (st : ParseState) : Prop :=
  (∀ pd ∈ st.publications, ∃ k, pd.dblp_key = some k ∧ k ≠ "" ∧ k ∈ st.local_seen_keys) ∧
  (st.publications.map (fun p => p.dblp_key)).Nodup

def c4RawEntry : RawEntry :=
  { ID := "x2", ENTRYTYPE := some "article", doi := "d1", title := "", author := ""
    editor := "", year := none, journal := "", booktitle := "", volume := ""
    number := "", pages := "", publisher := "", series := "", url := "", ee := ""
    biburl := "", bibsource := "", timestamp := "", abstract := "", keywords := "" }

def emptyIdEntry : RawEntry :=
  { ID := " ", ENTRYTYPE := none, doi := "", title := "", author := "", editor := ""
    year := none, journal := "", booktitle := "", volume := "", number := ""
    pages := "", publisher := "", series := "", url := "", ee := "", biburl := ""
    bibsource := "", timestamp := "", abstract := "", keywords := "" }

lemma gca_db_publications (svc : IngestionService) (n : String) (f : Bool)
    (pid : Option String) (fd : Option FacultyInfo) :
    ((get_or_create_author svc n f pid fd).2).db.publications = svc.db.publications := by
  unfold get_or_create_author
  dsimp only
  repeat' split
  all_goals rfl

lemma gca_db_next_pub_id (svc : IngestionService) (n : String) (f : Bool)
    (pid : Option String) (fd : Option FacultyInfo) :
    ((get_or_create_author svc n f pid fd).2).db.next_pub_id = svc.db.next_pub_id := by
  unfold get_or_create_author
  dsimp only
  repeat' split
  all_goals rfl

lemma gcv_db_publications (svc : IngestionService) (n t p : String) :
    ((get_or_create_venue svc n t p).2).db.publications = svc.db.publications := by
  unfold get_or_create_venue
  dsimp only
  repeat' split
  all_goals rfl

lemma gcv_db_next_pub_id (svc : IngestionService) (n t p : String) :
    ((get_or_create_venue svc n t p).2).db.next_pub_id = svc.db.next_pub_id := by
  unfold get_or_create_venue
  dsimp only
  repeat' split
  all_goals rfl

lemma resolveEntryAuthor_publications (svc : IngestionService) (aip : List Nat)
    (pid pos : Nat) (name : String) (fpids : List String)
    (bp : List (String × FacultyInfo)) :
    ((resolveEntryAuthor svc aip pid pos name fpids bp).1).db.publications = svc.db.publications := by
  unfold resolveEntryAuthor
  dsimp only
  split <;> simp [gca_db_publications]

lemma processAuthorsAux_publications (names : List String) (svc : IngestionService)
    (aip : List Nat) (pid pos : Nat) (fpids : List String)
    (bp : List (String × FacultyInfo)) :
    ((processAuthorsAux svc aip pid pos names fpids bp).1).db.publications = svc.db.publications := by
  induction names generalizing svc aip pos with
  | nil => rfl
  | cons h t ih => simp [processAuthorsAux, ih, resolveEntryAuthor_publications]

lemma setAuthorCollabCount_publications (svc : IngestionService) (aid : Nat) :
    (setAuthorCollabCount svc aid).db.publications = svc.db.publications := rfl

lemma collabPairStep_publications (svc : IngestionService) (a b : Nat) (y : Option Int) :
    (collabPairStep svc a b y).db.publications = svc.db.publications := by
  unfold collabPairStep
  dsimp only
  simp [setAuthorCollabCount_publications]

lemma collabPairsAux_publications (pairs : List (Nat × Nat)) (svc : IngestionService)
    (y : Option Int) :
    (collabPairsAux svc pairs y).db.publications = svc.db.publications := by
  induction pairs generalizing svc with
  | nil => rfl
  | cons p rest ih => simp [collabPairsAux, ih, collabPairStep_publications]

lemma create_collaborations_publications (svc : IngestionService) (as : List Nat)
    (y : Option Int) :
    (create_collaborations svc as y).db.publications = svc.db.publications := by
  unfold create_collaborations
  split
  · rfl
  · exact collabPairsAux_publications _ _ _

lemma create_publication_new_publications (svc : IngestionService) (pd : PubData)
    (k : String) (fm : FacultyMapping) :
    ((create_publication_new svc pd k fm).2).db.publications =
      (svc.db.publications ++ [mkPublication pd k svc.db.next_pub_id]).map
        (fun p => if p.id = svc.db.next_pub_id then
            { p with has_faculty_author := hasFacultyPids pd fm } else p) := by
  unfold create_publication_new
  dsimp only
  repeat' split
  all_goals
    simp [processAuthors, processAuthorsAux_publications,
      create_collaborations_publications, gcv_db_publications, gcv_db_next_pub_id,
      hasFacultyPids, mkPublication]

lemma create_publication_none (svc : IngestionService) (pd : PubData)
    (fm : FacultyMapping) (h : pd.dblp_key = none) :
    create_publication svc pd fm =
      (false, { svc with stats := { svc.stats with errors := svc.stats.errors + 1 } }) := by
  unfold create_publication
  rw [h]

lemma create_publication_skip (svc : IngestionService) (pd : PubData)
    (fm : FacultyMapping) (k : String) (q : Publication)
    (hk : pd.dblp_key = some k)
    (hf : svc.db.publications.find? (fun p => p.dblp_key == k) = some q) :
    create_publication svc pd fm =
      (false, { svc with stats := { svc.stats with
        publications_skipped := svc.stats.publications_skipped + 1 } }) := by
  unfold create_publication create_publication_keyed
  rw [hk]
  dsimp only
  rw [hf]

lemma create_publication_create (svc : IngestionService) (pd : PubData)
    (fm : FacultyMapping) (k : String)
    (hk : pd.dblp_key = some k)
    (hf : svc.db.publications.find? (fun p => p.dblp_key == k) = none) :
    create_publication svc pd fm = create_publication_new svc pd k fm := by
  unfold create_publication create_publication_keyed
  rw [hk]
  dsimp only
  rw [hf]

lemma map_dblp_key_flag (l : List Publication) (i : Nat) (b : Bool) :
    (l.map (fun p => if p.id = i then { p with has_faculty_author := b } else p)).map
      (fun p => p.dblp_key) = l.map (fun p => p.dblp_key) := by
  induction l with
  | nil => rfl
  | cons h t ih =>
    simp only [List.map_cons, ih, List.cons.injEq, and_true]
    split <;> rfl

lemma cp_keys_mono (svc : IngestionService) (pd : PubData) (fm : FacultyMapping)
    (k : String) (hm : k ∈ pubKeys svc) :
    k ∈ pubKeys (create_publication svc pd fm).2 := by
  match hdk : pd.dblp_key with
  | none => rw [create_publication_none svc pd fm hdk]; exact hm
  | some k' =>
    match hf : svc.db.publications.find? (fun p => p.dblp_key == k') with
    | some q => rw [create_publication_skip svc pd fm k' q hdk hf]; exact hm
    | none =>
      rw [create_publication_create svc pd fm k' hdk hf]
      unfold pubKeys
      rw [create_publication_new_publications, map_dblp_key_flag]
      simp only [List.map_append]
      exact List.mem_append_left _ hm

lemma cp_key_present (svc : IngestionService) (pd : PubData) (fm : FacultyMapping)
    (k : String) (hk : pd.dblp_key = some k) :
    k ∈ pubKeys (create_publication svc pd fm).2 := by
  match hf : svc.db.publications.find? (fun p => p.dblp_key == k) with
  | some q =>
    rw [create_publication_skip svc pd fm k q hk hf]
    have hq := List.mem_of_find?_eq_some hf
    have hqk := List.find?_some hf
    simp only [beq_iff_eq] at hqk
    unfold pubKeys
    exact List.mem_map.2 ⟨q, hq, hqk⟩
  | none =>
    rw [create_publication_create svc pd fm k hk hf]
    unfold pubKeys
    rw [create_publication_new_publications, map_dblp_key_flag]
    simp [mkPublication]

lemma ingest_keys_mono (pubs : List PubData) (svc : IngestionService)
    (fm : FacultyMapping) (k : String) (hm : k ∈ pubKeys svc) :
    k ∈ pubKeys (ingest_publications svc pubs fm) := by
  induction pubs generalizing svc with
  | nil => exact hm
  | cons pd rest ih =>
    exact ih _ (cp_keys_mono svc pd fm k hm)

lemma ingest_all_keys_present (pubs : List PubData) (svc : IngestionService)
    (fm : FacultyMapping) :
    ∀ pd ∈ pubs, ∀ k, pd.dblp_key = some k →
      k ∈ pubKeys (ingest_publications svc pubs fm) := by
  induction pubs generalizing svc with
  | nil => intro pd h; simp at h
  | cons pd0 rest ih =>
    intro pd hpd k hk
    rcases List.mem_cons.1 hpd with h | h
    · subst h
      exact ingest_keys_mono rest _ fm k (cp_key_present svc pd fm k hk)
    · exact ih _ pd h k hk

lemma cp_db_unchanged_of_present (svc : IngestionService) (pd : PubData)
    (fm : FacultyMapping)
    (h : ∀ k, pd.dblp_key = some k → k ∈ pubKeys svc) :
    ((create_publication svc pd fm).2).db = svc.db := by
  match hdk : pd.dblp_key with
  | none => rw [create_publication_none svc pd fm hdk]
  | some k =>
    have hk := h k hdk
    unfold pubKeys at hk
    rcases List.mem_map.1 hk with ⟨q, hq, hqk⟩
    have : (svc.db.publications.find? (fun p => p.dblp_key == k)).isSome := by
      rw [List.find?_isSome]
      exact ⟨q, hq, by simp [hqk]⟩
    match hf : svc.db.publications.find? (fun p => p.dblp_key == k) with
    | some q' => rw [create_publication_skip svc pd fm k q' hdk hf]
    | none => rw [hf] at this; simp at this

lemma ingest_db_unchanged (pubs : List PubData) (svc : IngestionService)
    (fm : FacultyMapping)
    (h : ∀ pd ∈ pubs, ∀ k, pd.dblp_key = some k → k ∈ pubKeys svc) :
    (ingest_publications svc pubs fm).db = svc.db := by
  induction pubs generalizing svc with
  | nil => rfl
  | cons pd rest ih =>
    have hdb := cp_db_unchanged_of_present svc pd fm (h pd (List.mem_cons_self _ _))
    have hkeys : pubKeys (create_publication svc pd fm).2 = pubKeys svc := by
      unfold pubKeys; rw [hdb]
    calc (ingest_publications (create_publication svc pd fm).2 rest fm).db
        = ((create_publication svc pd fm).2).db := by
          apply ih
          intro pd' hpd' k hk
          rw [hkeys]
          exact h pd' (List.mem_cons_of_mem _ hpd') k hk
      _ = svc.db := hdb

-- C5 groundwork
lemma collabPairStep_collabs (svc : IngestionService) (a b : Nat) (y : Option Int) :
    (collabPairStep svc a b y).db.collaborations =
      (upsertCollab svc.db.collaborations
        (if a < b then (a, b) else (b, a)).1
        (if a < b then (a, b) else (b, a)).2 y).1 := by
  unfold collabPairStep
  dsimp only
  simp [setAuthorCollabCount]

lemma widenYears_ids (c : Collaboration) (y : Option Int) :
    (widenYears c y).author1_id = c.author1_id ∧ (widenYears c y).author2_id = c.author2_id := by
  unfold widenYears
  repeat' split
  all_goals simp

lemma widenYears_count (c : Collaboration) (y : Option Int) :
    (widenYears c y).collaboration_count = c.collaboration_count := by
  unfold widenYears
  repeat' split
  all_goals simp

lemma updateFirstCollab_find (cs : List Collaboration) (a1 a2 : Nat)
    (f : Collaboration → Collaboration)
    (hf : ∀ c, (f c).author1_id = c.author1_id ∧ (f c).author2_id = c.author2_id) :
    lookupCollab (updateFirstCollab cs a1 a2 f) a1 a2 =
      (lookupCollab cs a1 a2).map f := by
  induction cs with
  | nil => rfl
  | cons c rest ih =>
    by_cases h : (c.author1_id == a1 && c.author2_id == a2) = true
    · have h' : ((f c).author1_id == a1 && (f c).author2_id == a2) = true := by
        rw [(hf c).1, (hf c).2]; exact h
      simp [updateFirstCollab, lookupCollab, h, h']
    · simp only [Bool.not_eq_true] at h
      simp only [updateFirstCollab, lookupCollab, h, Bool.false_eq_true, if_false,
        List.find?_cons, Bool.false_eq_true]
      exact ih

lemma updateFirstCollab_length (cs : List Collaboration) (a1 a2 : Nat)
    (f : Collaboration → Collaboration) :
    (updateFirstCollab cs a1 a2 f).length = cs.length := by
  induction cs with
  | nil => rfl
  | cons c rest ih =>
    unfold updateFirstCollab
    split <;> simp [ih]

lemma updateFirstCollab_keys (cs : List Collaboration) (a1 a2 : Nat)
    (f : Collaboration → Collaboration)
    (hf : ∀ c, (f c).author1_id = c.author1_id ∧ (f c).author2_id = c.author2_id) :
    (updateFirstCollab cs a1 a2 f).map (fun c => (c.author1_id, c.author2_id)) =
      cs.map (fun c => (c.author1_id, c.author2_id)) := by
  induction cs with
  | nil => rfl
  | cons c rest ih =>
    unfold updateFirstCollab
    split
    · simp [(hf c).1, (hf c).2]
    · simp [ih]

lemma upsertCollab_found (cs : List Collaboration) (a1 a2 : Nat) (y : Option Int)
    (c : Collaboration) (h : lookupCollab cs a1 a2 = some c) :
    upsertCollab cs a1 a2 y =
      (updateFirstCollab cs a1 a2
        (fun c => widenYears { c with collaboration_count := c.collaboration_count + 1 } y), 0) := by
  unfold upsertCollab
  unfold lookupCollab at h
  rw [h]

lemma upsertCollab_none (cs : List Collaboration) (a1 a2 : Nat) (y : Option Int)
    (h : lookupCollab cs a1 a2 = none) :
    upsertCollab cs a1 a2 y =
      (cs ++ [{ author1_id := a1, author2_id := a2, collaboration_count := 1,
                first_collaboration_year := y, last_collaboration_year := y }], 1) := by
  unfold upsertCollab
  unfold lookupCollab at h
  rw [h]

lemma upsertCollab_wf (cs : List Collaboration) (a1 a2 : Nat) (y : Option Int)
    (hwf : CollabWF cs) (hlt : a1 < a2) :
    CollabWF (upsertCollab cs a1 a2 y).1 := by
  match hl : lookupCollab cs a1 a2 with
  | some c =>
    rw [upsertCollab_found cs a1 a2 y c hl]
    constructor
    · intro c' hc'
      have hkeys := updateFirstCollab_keys cs a1 a2
        (fun c => widenYears { c with collaboration_count := c.collaboration_count + 1 } y)
        (fun c => widenYears_ids _ _)
      have : (c'.author1_id, c'.author2_id) ∈
          cs.map (fun c => (c.author1_id, c.author2_id)) := by
        rw [← hkeys]
        exact List.mem_map_of_mem _ hc'
      rcases List.mem_map.1 this with ⟨c0, hc0, heq⟩
      have h1 : c'.author1_id = c0.author1_id := by
        have := congrArg Prod.fst heq; simpa using this.symm
      have h2 : c'.author2_id = c0.author2_id := by
        have := congrArg Prod.snd heq; simpa using this.symm
      rw [h1, h2]
      exact hwf.1 c0 hc0
    · dsimp only
      rw [updateFirstCollab_keys cs a1 a2
        (fun c => widenYears { c with collaboration_count := c.collaboration_count + 1 } y)
        (fun c => widenYears_ids _ _)]
      exact hwf.2
  | none =>
    rw [upsertCollab_none cs a1 a2 y hl]
    have hnotin : ∀ c ∈ cs, ¬(c.author1_id = a1 ∧ c.author2_id = a2) := by
      intro c hc hcontra
      have := List.find?_eq_none.1 hl c hc
      simp [hcontra.1, hcontra.2] at this
    constructor
    · intro c hc
      rcases List.mem_append.1 hc with h | h
      · exact hwf.1 c h
      · simp at h
        rw [h]
        exact hlt
    · rw [List.map_append]
      simp only [List.map_cons, List.map_nil]
      rw [List.nodup_append]
      refine ⟨hwf.2, List.nodup_singleton _, ?_⟩
      intro p hp hq
      simp at hq
      rcases List.mem_map.1 hp with ⟨c0, hc0, heq⟩
      apply hnotin c0 hc0
      rw [← heq] at hq
      have hq1 : c0.author1_id = a1 := by
        have := congrArg Prod.fst hq; simpa using this
      have hq2 : c0.author2_id = a2 := by
        have := congrArg Prod.snd hq; simpa using this
      exact ⟨hq1, hq2⟩

lemma canonPair_lt (a b : Nat) (h : a ≠ b) :
    (if a < b then (a, b) else (b, a)).1 < (if a < b then (a, b) else (b, a)).2 := by
  split <;> omega

lemma collabPairStep_wf (svc : IngestionService) (a b : Nat) (y : Option Int)
    (hwf : CollabWF svc.db.collaborations) (hab : a ≠ b) :
    CollabWF (collabPairStep svc a b y).db.collaborations := by
  rw [collabPairStep_collabs]
  apply upsertCollab_wf _ _ _ _ hwf
  exact canonPair_lt a b hab

lemma collabPairsAux_wf (pairs : List (Nat × Nat)) (svc : IngestionService)
    (y : Option Int) (hwf : CollabWF svc.db.collaborations)
    (hp : ∀ p ∈ pairs, p.1 ≠ p.2) :
    CollabWF (collabPairsAux svc pairs y).db.collaborations := by
  induction pairs generalizing svc with
  | nil => exact hwf
  | cons p rest ih =>
    apply ih
    · exact collabPairStep_wf svc p.1 p.2 y hwf (hp p (List.mem_cons_self _ _))
    · intro q hq
      exact hp q (List.mem_cons_of_mem _ hq)

lemma allPairs_ne (l : List Nat) (hl : l.Nodup) :
    ∀ p ∈ allPairs l, p.1 ≠ p.2 := by
  induction l with
  | nil => intro p hp; simp [allPairs] at hp
  | cons a rest ih =>
    intro p hp
    rcases List.mem_append.1 hp with h | h
    · rcases List.mem_map.1 h with ⟨b, hb, heq⟩
      subst heq
      have : a ∉ rest := (List.nodup_cons.1 hl).1
      intro hcontra
      simp only at hcontra
      rw [hcontra] at this
      exact this hb
    · exact ih (List.nodup_cons.1 hl).2 p h

lemma create_collaborations_wf (svc : IngestionService) (as : List Nat)
    (y : Option Int) (hwf : CollabWF svc.db.collaborations) (hnd : as.Nodup) :
    CollabWF (create_collaborations svc as y).db.collaborations := by
  unfold create_collaborations
  split
  · exact hwf
  · exact collabPairsAux_wf _ _ _ hwf (allPairs_ne as hnd)

lemma create_collaborations_pair (svc : IngestionService) (x y : Nat)
    (yr : Option Int) :
    (create_collaborations svc [x, y] yr).db.collaborations =
      (upsertCollab svc.db.collaborations
        (if x < y then (x, y) else (y, x)).1
        (if x < y then (x, y) else (y, x)).2 yr).1 := by
  unfold create_collaborations
  norm_num [allPairs, collabPairsAux, collabPairStep_collabs]

lemma canonPair_comm (x y : Nat) (h : x ≠ y) :
    (if y < x then (y, x) else (x, y)) = (if x < y then (x, y) else (y, x)) := by
  rcases Nat.lt_trichotomy x y with hlt | heq | hgt
  · rw [if_neg (by omega), if_pos hlt]
  · exact absurd heq h
  · rw [if_pos hgt, if_neg (by omega)]

lemma canonPair_min_max (x y : Nat) (h : x ≠ y) :
    (if x < y then (x, y) else (y, x)) = (min x y, max x y) := by
  rcases Nat.lt_trichotomy x y with hlt | heq | hgt
  · rw [if_pos hlt, Nat.min_eq_left (by omega), Nat.max_eq_right (by omega)]
  · exact absurd heq h
  · rw [if_neg (by omega), Nat.min_eq_right (by omega), Nat.max_eq_left (by omega)]

lemma lookupCollab_append_one (cs : List Collaboration) (e : Collaboration)
    (a1 a2 : Nat) (h : lookupCollab cs a1 a2 = none) :
    lookupCollab (cs ++ [e]) a1 a2 =
      if e.author1_id == a1 && e.author2_id == a2 then some e else none := by
  induction cs with
  | nil =>
    unfold lookupCollab
    rw [List.nil_append]
    cases hp : (e.author1_id == a1 && e.author2_id == a2) <;>
      simp [List.find?_cons, hp]
  | cons c rest ih =>
    unfold lookupCollab at h ⊢
    cases hp : (c.author1_id == a1 && c.author2_id == a2)
    · simp only [List.cons_append, List.find?_cons, hp] at h ⊢
      exact ih h
    · simp only [List.find?_cons, hp] at h
      simp at h

lemma lookupCollab_upsert_self (cs : List Collaboration) (a1 a2 : Nat) (y : Option Int) :
    ∃ c1, lookupCollab (upsertCollab cs a1 a2 y).1 a1 a2 = some c1 := by
  match hl : lookupCollab cs a1 a2 with
  | some c0 =>
    rw [upsertCollab_found cs a1 a2 y c0 hl]
    dsimp only
    rw [updateFirstCollab_find cs a1 a2
      (fun c => widenYears { c with collaboration_count := c.collaboration_count + 1 } y)
      (fun c => ⟨(widenYears_ids _ _).1, (widenYears_ids _ _).2⟩)]
    rw [hl]
    exact ⟨_, rfl⟩
  | none =>
    rw [upsertCollab_none cs a1 a2 y hl]
    dsimp only
    rw [lookupCollab_append_one cs _ a1 a2 hl]
    simp

lemma lookupCollab_upsert_incr (cs : List Collaboration) (a1 a2 : Nat) (y : Option Int)
    (c1 : Collaboration) (h : lookupCollab cs a1 a2 = some c1) :
    lookupCollab (upsertCollab cs a1 a2 y).1 a1 a2 =
      some (widenYears { c1 with collaboration_count := c1.collaboration_count + 1 } y) := by
  rw [upsertCollab_found cs a1 a2 y c1 h]
  dsimp only
  rw [updateFirstCollab_find cs a1 a2
    (fun c => widenYears { c with collaboration_count := c.collaboration_count + 1 } y)
    (fun c => ⟨(widenYears_ids _ _).1, (widenYears_ids _ _).2⟩)]
  rw [h]
  rfl

lemma upsertCollab_found_length (cs : List Collaboration) (a1 a2 : Nat) (y : Option Int)
    (c1 : Collaboration) (h : lookupCollab cs a1 a2 = some c1) :
    (upsertCollab cs a1 a2 y).1.length = cs.length := by
  rw [upsertCollab_found cs a1 a2 y c1 h]
  exact updateFirstCollab_length _ _ _ _

-- create-path result lemmas
lemma create_publication_new_fst (svc : IngestionService) (pd : PubData)
    (k : String) (fm : FacultyMapping) :
    (create_publication_new svc pd k fm).1 = true := by
  unfold create_publication_new
  dsimp only

lemma hasFacultyPids_any (pd : PubData) (fm : FacultyMapping) :
    hasFacultyPids pd fm =
      pd.source_pids.any (fun pid => (fm.by_pid.lookup pid).isSome) := by
  unfold hasFacultyPids
  induction pd.source_pids with
  | nil => rfl
  | cons h t ih =>
    by_cases hp : (fm.by_pid.lookup h).isSome <;>
      simp [List.filter_cons, List.any_cons, hp, ih]

lemma create_publication_new_getLast (svc : IngestionService) (pd : PubData)
    (k : String) (fm : FacultyMapping) :
    ((create_publication_new svc pd k fm).2).db.publications.getLast? =
      some { mkPublication pd k svc.db.next_pub_id with
        has_faculty_author := hasFacultyPids pd fm } := by
  rw [create_publication_new_publications]
  rw [List.map_append]
  simp only [List.map_cons, List.map_nil]
  rw [List.getLast?_concat]
  simp [mkPublication]

lemma create_publication_new_length (svc : IngestionService) (pd : PubData)
    (k : String) (fm : FacultyMapping) :
    ((create_publication_new svc pd k fm).2).db.publications.length =
      svc.db.publications.length + 1 := by
  rw [create_publication_new_publications]
  simp

-- mergePub / updateIndex lemmas
lemma mergePub_found (index : List (String × PubData)) (tag : String)
    (pub : PubData) (d : Nat) (k : String) (e : PubData)
    (hk : pub.dblp_key = some k) (he : index.lookup k = some e) :
    mergePub index tag pub d =
      (updateIndex index k (if tag ∈ e.source_pids then e
        else { e with source_pids := e.source_pids ++ [tag] }), d + 1) := by
  unfold mergePub
  rw [hk]
  simp only [Option.getD_some]
  rw [he]

lemma updateIndex_length (index : List (String × PubData)) (k : String) (v : PubData) :
    (updateIndex index k v).length = index.length := by
  induction index with
  | nil => rfl
  | cons kv rest ih =>
    unfold updateIndex
    split <;> simp [ih]

lemma updateIndex_lookup_ne (index : List (String × PubData)) (k : String)
    (v : PubData) (k' : String) (h : k' ≠ k) :
    (updateIndex index k v).lookup k' = index.lookup k' := by
  induction index with
  | nil => rfl
  | cons kv rest ih =>
    match kv with
    | (k0, v0) =>
      unfold updateIndex
      by_cases h0 : k0 = k
      · subst h0
        simp only [if_pos rfl]
        have hne : (k' == k0) = false := beq_eq_false_iff_ne.2 h
        simp [List.lookup, hne]
      · simp only [if_neg h0]
        simp [List.lookup, ih]

-- Parser step characterizations and invariants
lemma parseEntryStep_empty_key (st : ParseState) (e : RawEntry)
    (h : pyStrip e.ID = "") :
    parseEntryStep st e =
      { st with total_count := st.total_count + 1, duplicate_count := st.duplicate_count + 1 } := by
  unfold parseEntryStep
  simp [h]

lemma parseEntryStep_seen_key (st : ParseState) (e : RawEntry)
    (h1 : pyStrip e.ID ≠ "") (h2 : pyStrip e.ID ∈ st.local_seen_keys) :
    parseEntryStep st e =
      { st with total_count := st.total_count + 1, duplicate_count := st.duplicate_count + 1 } := by
  unfold parseEntryStep
  simp [h1, h2]

lemma parseEntryStep_seen_doi (st : ParseState) (e : RawEntry)
    (h1 : pyStrip e.ID ≠ "") (h2 : pyStrip e.ID ∉ st.local_seen_keys)
    (h3 : pyUpper (pyStrip e.doi) ≠ "") (h4 : pyUpper (pyStrip e.doi) ∈ st.local_seen_dois) :
    parseEntryStep st e =
      { st with total_count := st.total_count + 1, duplicate_count := st.duplicate_count + 1 } := by
  unfold parseEntryStep
  simp [h1, h2, h3, h4]

lemma parseEntryStep_inv (st : ParseState) (e : RawEntry) (h : ParseInv st) :
    ParseInv (parseEntryStep st e) := by
  unfold parseEntryStep
  dsimp only
  split
  · exact h
  · split
    · exact h
    · split
      · exact h
      · rename_i hne hnotseen hdoi
        constructor
        · intro pd hpd
          rcases List.mem_append.1 hpd with hm | hm
          · rcases h.1 pd hm with ⟨k, hk, hkne, hkm⟩
            exact ⟨k, hk, hkne, List.mem_append_left _ hkm⟩
          · simp at hm
            subst hm
            refine ⟨pyStrip e.ID, rfl, hne, ?_⟩
            exact List.mem_append_right _ (List.mem_singleton.2 rfl)
        · rw [List.map_append]
          simp only [List.map_cons, List.map_nil]
          rw [List.nodup_append]
          refine ⟨h.2, List.nodup_singleton _, ?_⟩
          intro a ha hb
          simp at hb
          subst hb
          rcases List.mem_map.1 ha with ⟨pd, hpd, hkey⟩
          rcases h.1 pd hpd with ⟨k, hk, hkne, hkm⟩
          rw [hk] at hkey
          have : k = pyStrip e.ID := by
            injection hkey
          rw [this] at hkm
          exact hnotseen hkm

lemma parse_foldl_inv (entries : List RawEntry) (st : ParseState) (h : ParseInv st) :
    ParseInv (entries.foldl parseEntryStep st) := by
  induction entries generalizing st with
  | nil => exact h
  | cons e rest ih => exact ih _ (parseEntryStep_inv st e h)

lemma parseEntryStep_accounting (st : ParseState) (e : RawEntry)
    (h : st.total_count = st.publications.length + st.duplicate_count) :
    (parseEntryStep st e).total_count =
      (parseEntryStep st e).publications.length + (parseEntryStep st e).duplicate_count := by
  unfold parseEntryStep
  dsimp only
  split
  · simpa using by omega
  · split
    · simpa using by omega
    · split
      · simpa using by omega
      · simp
        omega

-- Admin invariants
lemma ingest_data_rejected_iff (s : AdminState) :
    ((ingest_data s).2 = false ↔ s.ingest_status = .running) := by
  unfold ingest_data
  split <;> simp_all

lemma adminStep_inv (s : AdminState) (e : AdminEvent)
    (h : s.ingest_status = .running → 1 ≤ s.active_tasks) :
    (adminStep s e).ingest_status = .running → 1 ≤ (adminStep s e).active_tasks := by
  cases e <;> unfold adminStep ingest_data <;> dsimp only
  · split <;> intro hc <;> simp_all
  · split <;> intro hc <;> simp_all
  · split
    · exact h
    · intro hc
      simp at hc
  · split
    · exact h
    · intro hc
      simp at hc

lemma adminRun_inv (evs : List AdminEvent) (s : AdminState)
    (h : s.ingest_status = .running → 1 ≤ s.active_tasks) :
    (List.foldl adminStep s evs).ingest_status = .running →
      1 ≤ (List.foldl adminStep s evs).active_tasks := by
  induction evs generalizing s with
  | nil => exact h
  | cons e rest ih => exact ih _ (adminStep_inv s e h)

/-- Claim C1 (code bug): resolving the same name first without an external id
and later with `isFaculty` and an external id creates a second `Author` row
with the same normalized name instead of promoting the existing one, because
the PID lookup never falls back to the normalized-name lookup. -/
theorem get_or_create_author_duplicate_on_promotion :
    ((get_or_create_author
        (get_or_create_author newService "John Doe" false none none).2
        "John Doe" true (some "p1") none).2).db.authors.length = 2 ∧
    ((get_or_create_author
        (get_or_create_author newService "John Doe" false none none).2
        "John Doe" true (some "p1") none).2).db.authors.map
      (fun a => a.normalized_name) = ["john doe", "john doe"] ∧
    ((get_or_create_author
        (get_or_create_author newService "John Doe" false none none).2
        "John Doe" true (some "p1") none).2).db.authors.map
      (fun a => a.is_faculty) = [false, true] := by
  decide

/-- Claim C2 counterexample: an entry whose primary key matches an existing
publication is reported as a duplicate, but its source tag is NOT added to
the existing publication's provenance set at the database layer. -/
theorem create_publication_drops_provenance_tag :
    (create_publication svcWithPubK
      { basePubData with dblp_key := some "k", source_pids := ["00/2"] }
      emptyFacultyMapping).1 = false ∧
    ((create_publication svcWithPubK
      { basePubData with dblp_key := some "k", source_pids := ["00/2"] }
      emptyFacultyMapping).2).db.publications.map (fun p => p.source_pids) = [["00/1"]] := by
  decide

/-- Claim C2 (amended): at the database layer a primary-key duplicate is
reported (`created=false`), counted, and the whole database — including the
provenance set — is left unchanged; the source tag is added to the provenance
set only by the parse-stage cross-file merge, which extends `source_pids` of
the indexed record (no-op when present), touches nothing else, and creates no
new record. -/
theorem provenance_accrual_amended :
    (∀ (svc : IngestionService) (pd : PubData) (fm : FacultyMapping) (k : String)
      (q : Publication), pd.dblp_key = some k →
      svc.db.publications.find? (fun p => p.dblp_key == k) = some q →
      (create_publication svc pd fm).1 = false ∧
      ((create_publication svc pd fm).2).db = svc.db ∧
      ((create_publication svc pd fm).2).stats.publications_skipped =
        svc.stats.publications_skipped + 1) ∧
    (∀ (index : List (String × PubData)) (tag : String) (pub : PubData)
      (d : Nat) (k : String) (e : PubData),
      pub.dblp_key = some k → index.lookup k = some e →
      mergePub index tag pub d =
        (updateIndex index k (if tag ∈ e.source_pids then e
          else { e with source_pids := e.source_pids ++ [tag] }), d + 1) ∧
      (updateIndex index k (if tag ∈ e.source_pids then e
          else { e with source_pids := e.source_pids ++ [tag] })).length = index.length) ∧
    (∀ (index : List (String × PubData)) (k : String) (v : PubData) (k' : String),
      k' ≠ k → (updateIndex index k v).lookup k' = index.lookup k') := by
  refine ⟨?_, ?_, ?_⟩
  · intro svc pd fm k q hk hf
    rw [create_publication_skip svc pd fm k q hk hf]
    exact ⟨rfl, rfl, rfl⟩
  · intro index tag pub d k e hk he
    exact ⟨mergePub_found index tag pub d k e hk he, updateIndex_length _ _ _⟩
  · intro index k v k' h
    exact updateIndex_lookup_ne index k v k' h

theorem provenance_accrual_amended_witness :
    ((create_publication svcWithPubK
        { basePubData with dblp_key := some "k", source_pids := ["00/2"] }
        emptyFacultyMapping).2).db = svcWithPubK.db ∧
    mergePub [("k", basePubData)] "00/2" { basePubData with dblp_key := some "k" } 0 =
      (updateIndex [("k", basePubData)] "k"
        { basePubData with source_pids := basePubData.source_pids ++ ["00/2"] }, 1) := by
  constructor
  · exact (provenance_accrual_amended.1 svcWithPubK
      { basePubData with dblp_key := some "k", source_pids := ["00/2"] }
      emptyFacultyMapping "k" ({ basePublication with doi := "D" }) rfl (by decide)).2.1
  · have h := (provenance_accrual_amended.2.1 [("k", basePubData)] "00/2"
      { basePubData with dblp_key := some "k" } 0 "k" basePubData rfl (by decide)).1
    rw [h]
    have : ("00/2" ∈ basePubData.source_pids) = False := by simp [basePubData]
    simp [this]

/-- Claim C3: re-ingesting the same parsed batch leaves the database — hence
the publication count and every publication's provenance set — exactly as
after the first ingestion. -/
theorem reingestion_idempotent (svc : IngestionService) (pubs : List PubData)
    (fm : FacultyMapping) :
    (ingest_publications (ingest_publications svc pubs fm) pubs fm).db =
      (ingest_publications svc pubs fm).db ∧
    ((ingest_publications (ingest_publications svc pubs fm) pubs fm).db.publications.length =
      (ingest_publications svc pubs fm).db.publications.length) ∧
    ((ingest_publications (ingest_publications svc pubs fm) pubs fm).db.publications.map
        (fun p => p.source_pids) =
      (ingest_publications svc pubs fm).db.publications.map (fun p => p.source_pids)) := by
  have h : (ingest_publications (ingest_publications svc pubs fm) pubs fm).db =
      (ingest_publications svc pubs fm).db := by
    apply ingest_db_unchanged
    intro pd hpd k hk
    exact ingest_all_keys_present pubs svc fm pd hpd k hk
  exact ⟨h, by rw [h], by rw [h]⟩

/-- Claim C4 counterexample: an entry with a fresh primary key whose non-empty
DOI is already bound to an existing publication is NOT treated as a
duplicate: a second publication row is created. -/
theorem doi_dedup_not_applied :
    (create_publication svcWithPubK { basePubData with dblp_key := some "k2", doi := "D" }
      emptyFacultyMapping).1 = true ∧
    ((create_publication svcWithPubK { basePubData with dblp_key := some "k2", doi := "D" }
      emptyFacultyMapping).2).db.publications.length = 2 := by
  decide

/-- Claim C4 (amended): secondary-key (DOI) dedup applies only within a single
file during parsing, where an entry repeating an earlier non-empty DOI is
dropped and counted; at the database layer only the primary key is consulted,
so an entry with a fresh primary key is ingested as a new publication even
when its DOI is already bound to an existing publication. -/
theorem secondary_key_dedup_amended :
    (∀ (svc : IngestionService) (pd : PubData) (fm : FacultyMapping) (k : String),
      pd.dblp_key = some k →
      svc.db.publications.find? (fun p => p.dblp_key == k) = none →
      (∃ q ∈ svc.db.publications, q.doi = pd.doi ∧ pd.doi ≠ "") →
      (create_publication svc pd fm).1 = true ∧
      ((create_publication svc pd fm).2).db.publications.length =
        svc.db.publications.length + 1) ∧
    (∀ (st : ParseState) (e : RawEntry),
      pyStrip e.ID ≠ "" → pyStrip e.ID ∉ st.local_seen_keys →
      pyUpper (pyStrip e.doi) ≠ "" → pyUpper (pyStrip e.doi) ∈ st.local_seen_dois →
      parseEntryStep st e =
        { st with total_count := st.total_count + 1, duplicate_count := st.duplicate_count + 1 }) := by
  constructor
  · intro svc pd fm k hk hf hdoi
    rw [create_publication_create svc pd fm k hk hf]
    exact ⟨create_publication_new_fst svc pd k fm, create_publication_new_length svc pd k fm⟩
  · intro st e h1 h2 h3 h4
    exact parseEntryStep_seen_doi st e h1 h2 h3 h4

theorem secondary_key_dedup_amended_witness :
    ((create_publication svcWithPubK
        { basePubData with dblp_key := some "k2", doi := "D" }
        emptyFacultyMapping).1 = true ∧
      ((create_publication svcWithPubK
        { basePubData with dblp_key := some "k2", doi := "D" }
        emptyFacultyMapping).2).db.publications.length =
        svcWithPubK.db.publications.length + 1) ∧
    parseEntryStep { initParseState with local_seen_dois := ["D1"] } c4RawEntry =
      { initParseState with local_seen_dois := ["D1"], total_count := 1, duplicate_count := 1 } := by
  constructor
  · exact secondary_key_dedup_amended.1 svcWithPubK
      { basePubData with dblp_key := some "k2", doi := "D" }
      emptyFacultyMapping "k2" rfl (by decide)
      ⟨{ basePublication with doi := "D" }, by decide, by decide, by decide⟩
  · exact secondary_key_dedup_amended.2 { initParseState with local_seen_dois := ["D1"] }
      c4RawEntry (by decide) (by decide) (by decide) (by decide)

/-- Claim C5: collaboration edges are canonically ordered and unique per
unordered pair: recording (x, y) and then (y, x) updates the single canonical
edge (count incremented, year range widened), never creating a mirror
duplicate; and `_create_collaborations` preserves the at-most-one-edge-per-
unordered-pair invariant for any duplicate-free author list. -/
theorem collaboration_edge_canonical :
    (∀ (svc : IngestionService) (x y : Nat) (yr1 yr2 : Option Int),
      CollabWF svc.db.collaborations → x ≠ y →
      (create_collaborations (create_collaborations svc [x, y] yr1) [y, x] yr2).db.collaborations.length =
        (create_collaborations svc [x, y] yr1).db.collaborations.length ∧
      CollabWF (create_collaborations (create_collaborations svc [x, y] yr1) [y, x] yr2).db.collaborations ∧
      ∃ c1, lookupCollab (create_collaborations svc [x, y] yr1).db.collaborations
              (min x y) (max x y) = some c1 ∧
        lookupCollab (create_collaborations (create_collaborations svc [x, y] yr1) [y, x] yr2).db.collaborations
            (min x y) (max x y) =
          some (widenYears { c1 with collaboration_count := c1.collaboration_count + 1 } yr2)) ∧
    (∀ (svc : IngestionService) (authors : List Nat) (yr : Option Int),
      CollabWF svc.db.collaborations → authors.Nodup →
      CollabWF (create_collaborations svc authors yr).db.collaborations) := by
  constructor
  · intro svc x y yr1 yr2 hwf hxy
    have hmm : min x y < max x y := by omega
    have h1 : (create_collaborations svc [x, y] yr1).db.collaborations =
        (upsertCollab svc.db.collaborations (min x y) (max x y) yr1).1 := by
      rw [create_collaborations_pair, canonPair_min_max x y hxy]
    have h2 : (create_collaborations (create_collaborations svc [x, y] yr1) [y, x] yr2).db.collaborations =
        (upsertCollab (create_collaborations svc [x, y] yr1).db.collaborations
          (min x y) (max x y) yr2).1 := by
      rw [create_collaborations_pair, canonPair_comm x y hxy, canonPair_min_max x y hxy]
    obtain ⟨c1, hc1⟩ := lookupCollab_upsert_self svc.db.collaborations (min x y) (max x y) yr1
    rw [← h1] at hc1
    refine ⟨?_, ?_, c1, hc1, ?_⟩
    · rw [h2]
      exact upsertCollab_found_length _ _ _ _ c1 hc1
    · rw [h2]
      apply upsertCollab_wf _ _ _ _ _ hmm
      rw [h1]
      exact upsertCollab_wf _ _ _ _ hwf hmm
    · rw [h2]
      exact lookupCollab_upsert_incr _ _ _ _ c1 hc1
  · intro svc authors yr hwf hnd
    exact create_collaborations_wf svc authors yr hwf hnd

theorem collaboration_edge_canonical_witness :
    (create_collaborations (create_collaborations newService [1, 2] (some 2020)) [2, 1]
        (some 2021)).db.collaborations.length =
      (create_collaborations newService [1, 2] (some 2020)).db.collaborations.length ∧
    CollabWF (create_collaborations (create_collaborations newService [1, 2] (some 2020)) [2, 1]
        (some 2021)).db.collaborations := by
  have h := collaboration_edge_canonical.1 newService 1 2 (some 2020) (some 2021)
    (by constructor <;> simp [newService, emptyDB]) (by decide)
  exact ⟨h.1, h.2.1⟩

/-- Claim C6 counterexample: a publication whose source PID belongs to a
faculty member whose name matches no listed author gets
`has_faculty_author = true` although no resolved author carries the faculty
flag. -/
theorem has_faculty_flag_without_faculty_author :
    ((create_publication newService
        { basePubData with dblp_key := some "k1", authors := ["Bob X"], source_pids := ["p1"] }
        aliceMapping).2).db.publications.map (fun p => p.has_faculty_author) = [true] ∧
    ((create_publication newService
        { basePubData with dblp_key := some "k1", authors := ["Bob X"], source_pids := ["p1"] }
        aliceMapping).2).db.authors.map (fun a => a.is_faculty) = [false] := by
  decide

/-- Claim C6 (amended): a newly created publication's `has_faculty_author`
flag is true iff at least one of the entry's source PIDs belongs to a faculty
member of the mapping; the faculty flags of the resolved author records are
not consulted. -/
theorem has_faculty_flag_from_source_pids :
    ∀ (svc : IngestionService) (pd : PubData) (fm : FacultyMapping) (k : String),
      pd.dblp_key = some k →
      svc.db.publications.find? (fun p => p.dblp_key == k) = none →
      ∃ p, ((create_publication svc pd fm).2).db.publications.getLast? = some p ∧
        p.dblp_key = k ∧
        p.has_faculty_author = pd.source_pids.any (fun pid => (fm.by_pid.lookup pid).isSome) := by
  intro svc pd fm k hk hf
  rw [create_publication_create svc pd fm k hk hf]
  refine ⟨_, create_publication_new_getLast svc pd k fm, rfl, ?_⟩
  exact hasFacultyPids_any pd fm

theorem has_faculty_flag_from_source_pids_witness :
    ∃ p, ((create_publication newService
        { basePubData with dblp_key := some "k1", authors := ["Bob X"], source_pids := ["p1"] }
        aliceMapping).2).db.publications.getLast? = some p ∧
      p.dblp_key = "k1" ∧
      p.has_faculty_author =
        (["p1"].any (fun pid => (aliceMapping.by_pid.lookup pid).isSome)) := by
  exact has_faculty_flag_from_source_pids newService
    { basePubData with dblp_key := some "k1", authors := ["Bob X"], source_pids := ["p1"] }
    aliceMapping "k1" rfl rfl

/-- Claim C7: in a batch of 10 entries where entry 5 is malformed (its dict
is missing the primary key), ingestion adds the other 9 publications and
counts exactly one error, continuing past the failure. -/
theorem partial_failure_containment :
    (ingest_publications newService c7Batch emptyFacultyMapping).stats.publications_added = 9 ∧
    (ingest_publications newService c7Batch emptyFacultyMapping).stats.errors = 1 ∧
    (ingest_publications newService c7Batch emptyFacultyMapping).db.publications.length = 9 := by
  decide

/-- Claim C8: the single-file parser drops an entry with an empty primary key
(counting it as a suppressed duplicate), drops an entry repeating an earlier
key or earlier non-empty DOI of the same file, and consequently every
returned entry has a non-empty primary key and all returned primary keys are
pairwise distinct. -/
theorem parse_within_file_dedup :
    (∀ (st : ParseState) (e : RawEntry), pyStrip e.ID = "" →
      parseEntryStep st e =
        { st with total_count := st.total_count + 1, duplicate_count := st.duplicate_count + 1 }) ∧
    (∀ (st : ParseState) (e : RawEntry),
      pyStrip e.ID ≠ "" → pyStrip e.ID ∈ st.local_seen_keys →
      parseEntryStep st e =
        { st with total_count := st.total_count + 1, duplicate_count := st.duplicate_count + 1 }) ∧
    (∀ (st : ParseState) (e : RawEntry),
      pyStrip e.ID ≠ "" → pyStrip e.ID ∉ st.local_seen_keys →
      pyUpper (pyStrip e.doi) ≠ "" → pyUpper (pyStrip e.doi) ∈ st.local_seen_dois →
      parseEntryStep st e =
        { st with total_count := st.total_count + 1, duplicate_count := st.duplicate_count + 1 }) ∧
    (∀ entries : List RawEntry,
      (∀ pd ∈ (parse_bib_file entries).1, ∃ k, pd.dblp_key = some k ∧ k ≠ "") ∧
      ((parse_bib_file entries).1.map (fun p => p.dblp_key)).Nodup) := by
  refine ⟨parseEntryStep_empty_key, parseEntryStep_seen_key, parseEntryStep_seen_doi, ?_⟩
  intro entries
  have hinv : ParseInv (entries.foldl parseEntryStep initParseState) := by
    apply parse_foldl_inv
    constructor
    · intro pd hpd
      simp [initParseState] at hpd
    · simp [initParseState]
  unfold parse_bib_file
  constructor
  · intro pd hpd
    rcases hinv.1 pd hpd with ⟨k, hk, hkne, _⟩
    exact ⟨k, hk, hkne⟩
  · exact hinv.2

theorem parse_within_file_dedup_witness :
    (parseEntryStep initParseState emptyIdEntry =
      { initParseState with total_count := 1, duplicate_count := 1 }) ∧
    (parseEntryStep { initParseState with local_seen_keys := ["x2"] } c4RawEntry =
      { initParseState with local_seen_keys := ["x2"], total_count := 1, duplicate_count := 1 }) ∧
    (parseEntryStep { initParseState with local_seen_dois := ["D1"] } c4RawEntry =
      { initParseState with local_seen_dois := ["D1"], total_count := 1, duplicate_count := 1 }) ∧
    (∀ pd ∈ (parse_bib_file [emptyIdEntry, c4RawEntry, c4RawEntry]).1,
      ∃ k, pd.dblp_key = some k ∧ k ≠ "") ∧
    ((parse_bib_file [emptyIdEntry, c4RawEntry, c4RawEntry]).1.map
      (fun p => p.dblp_key)).Nodup := by
  refine ⟨parse_within_file_dedup.1 initParseState emptyIdEntry (by decide),
    parse_within_file_dedup.2.1 { initParseState with local_seen_keys := ["x2"] }
      c4RawEntry (by decide) (by decide),
    parse_within_file_dedup.2.2.1 { initParseState with local_seen_dois := ["D1"] }
      c4RawEntry (by decide) (by decide) (by decide) (by decide),
    (parse_within_file_dedup.2.2.2 [emptyIdEntry, c4RawEntry, c4RawEntry]).1,
    (parse_within_file_dedup.2.2.2 [emptyIdEntry, c4RawEntry, c4RawEntry]).2⟩

/-- Claim C9 counterexample: after one accepted start request (status
`starting`, one queued run not yet completed or failed), a second start
request is accepted rather than rejected; and two runs can be active
simultaneously. -/
theorem second_start_accepted_while_starting :
    (adminRun [.startRequest]).pending_tasks + (adminRun [.startRequest]).active_tasks = 1 ∧
    (ingest_data (adminRun [.startRequest])).2 = true ∧
    (adminRun [.startRequest, .startRequest, .beginTask, .beginTask]).active_tasks = 2 := by
  decide

/-- Claim C9 (amended): a start request is rejected exactly when the recorded
status is `running`; the status can only be `running` while at least one
background task is executing — but in the window after a start was accepted
and before its background task begins (status `starting`), further start
requests are accepted. -/
theorem ingest_start_rejected_iff_running :
    ∀ evs : List AdminEvent,
      ((ingest_data (adminRun evs)).2 = false ↔ (adminRun evs).ingest_status = .running) ∧
      ((adminRun evs).ingest_status = .running → 1 ≤ (adminRun evs).active_tasks) := by
  intro evs
  refine ⟨ingest_data_rejected_iff _, ?_⟩
  unfold adminRun
  apply adminRun_inv
  intro h
  simp [initialAdminState] at h

theorem ingest_start_rejected_iff_running_witness :
    ((ingest_data (adminRun [.startRequest, .beginTask])).2 = false ↔
      (adminRun [.startRequest, .beginTask]).ingest_status = .running) ∧
    ((adminRun [.startRequest, .beginTask]).ingest_status = .running →
      1 ≤ (adminRun [.startRequest, .beginTask]).active_tasks) :=
  ingest_start_rejected_iff_running [.startRequest, .beginTask]

/-- Claim C10: entry accounting is conserved: for every entry list the parser
returns `total_count = (number of returned entries) + duplicate_count`. -/
theorem parse_entry_accounting :
    ∀ entries : List RawEntry,
      (parse_bib_file entries).2.1 =
        (parse_bib_file entries).1.length + (parse_bib_file entries).2.2 := by
  intro entries
  unfold parse_bib_file
  dsimp only
  have h : ∀ (l : List RawEntry) (st : ParseState),
      st.total_count = st.publications.length + st.duplicate_count →
      (l.foldl parseEntryStep st).total_count =
        (l.foldl parseEntryStep st).publications.length +
          (l.foldl parseEntryStep st).duplicate_count := by
    intro l
    induction l with
    | nil => intro st hst; exact hst
    | cons e rest ih => intro st hst; exact ih _ (parseEntryStep_accounting st e hst)
  exact h entries initParseState rfl
